import Mathlib

/-!
Verification of the hybrid profile-change arbitration engine of the
supplier-registration backend, shallowly embedded from
backend/app/core/profile_permissions.py and
backend/app/api/routes/profile_changes.py.
Change-sets are association lists from field names to string values,
mirroring the JSON dictionaries the routes pass around.
-/

/-- Permission levels for profile fields
(class FieldPermissionLevel in profile_permissions.py). -/
inductive FieldPermissionLevel where
  | DIRECT
  | APPROVAL_REQUIRED
  | READ_ONLY
deriving DecidableEq, Repr

/-- Fields that vendors can update directly (DIRECT_UPDATE_FIELDS). -/
def DIRECT_UPDATE_FIELDS : List String :=
  ["contact_person_name", "contact_person_title", "phone", "website",
   "street_address", "city", "state_province", "postal_code", "country"]

/-- Fields that require admin approval (APPROVAL_REQUIRED_FIELDS). -/
def APPROVAL_REQUIRED_FIELDS : List String :=
  ["company_name", "email", "tax_id", "registration_number",
   "business_category", "years_in_business"]

/-- System-managed fields that cannot be changed by vendors (READ_ONLY_FIELDS). -/
def READ_ONLY_FIELDS : List String :=
  ["id", "status", "activity_status", "created_at", "updated_at",
   "submitted_at", "reviewed_at", "reviewed_by", "admin_notes",
   "rejection_reason", "info_request_message"]

/-- get_field_permission from profile_permissions.py: membership in the
DIRECT set, then the APPROVAL set, else READ_ONLY. -/
def get_field_permission (field_name : String) : FieldPermissionLevel :=
  if field_name ∈ DIRECT_UPDATE_FIELDS then .DIRECT
  else if field_name ∈ APPROVAL_REQUIRED_FIELDS then .APPROVAL_REQUIRED
  else .READ_ONLY

/-- The result dictionary of separate_changes_by_permission. -/
structure SeparatedChanges where
  direct : List (String × String)
  approval_required : List (String × String)
  rejected : List (String × String)
deriving DecidableEq, Repr

/-- One iteration of the loop in separate_changes_by_permission: route the
entry to the list selected by its permission level. -/
def separate_step (result : SeparatedChanges) (fv : String × String) : SeparatedChanges :=
  match get_field_permission fv.1 with
  | .DIRECT => { result with direct := result.direct ++ [fv] }
  | .APPROVAL_REQUIRED =>
      { result with approval_required := result.approval_required ++ [fv] }
  | .READ_ONLY => { result with rejected := result.rejected ++ [fv] }

/-- separate_changes_by_permission from profile_permissions.py: iterate the
requested changes in order, appending each to the bucket of its permission. -/
def separate_changes_by_permission
    (requested_changes : List (String × String)) : SeparatedChanges :=
  requested_changes.foldl separate_step ⟨[], [], []⟩

/-- validate_field_permissions from profile_permissions.py. -/
def validate_field_permissions
    (requested_changes : List (String × String)) :
    Bool × String × SeparatedChanges :=
  let categorized := separate_changes_by_permission requested_changes
  if categorized.rejected ≠ [] then
    let rejected_fields := String.intercalate ", " (categorized.rejected.map Prod.fst)
    (false, "Cannot modify read-only fields: " ++ rejected_fields, categorized)
  else if categorized.direct = [] ∧ categorized.approval_required = [] then
    (false, "No valid fields to update", categorized)
  else
    (true, "", categorized)

/-- The loop of separate_changes_by_permission, started from an arbitrary
accumulator, appends to each bucket exactly the entries of that permission,
in order. -/
theorem separate_foldl_eq (l : List (String × String)) (acc : SeparatedChanges) :
    l.foldl separate_step acc =
      ⟨acc.direct ++ l.filter (fun p => decide (get_field_permission p.1 = .DIRECT)),
       acc.approval_required ++
         l.filter (fun p => decide (get_field_permission p.1 = .APPROVAL_REQUIRED)),
       acc.rejected ++ l.filter (fun p => decide (get_field_permission p.1 = .READ_ONLY))⟩ := by
  induction l generalizing acc with
  | nil => simp
  | cons fv rest ih =>
    rw [List.foldl_cons, ih]
    cases h : get_field_permission fv.1 <;>
      simp [separate_step, h, List.filter_cons]

/-- Bucket characterisation of separate_changes_by_permission. -/
theorem separate_eq_filter (C : List (String × String)) :
    separate_changes_by_permission C =
      ⟨C.filter (fun p => decide (get_field_permission p.1 = .DIRECT)),
       C.filter (fun p => decide (get_field_permission p.1 = .APPROVAL_REQUIRED)),
       C.filter (fun p => decide (get_field_permission p.1 = .READ_ONLY))⟩ := by
  simpa using separate_foldl_eq C ⟨[], [], []⟩

/-! ## State model: the record store as seen through the db wrapper -/

/-- Lifecycle states of a profile change request (the status column of the
profile_change_requests table). -/
inductive RequestStatus where
  | PENDING
  | APPROVED
  | REJECTED
  | CANCELLED
deriving DecidableEq, Repr

/-- A row of the profile_change_requests table, as read back through
parse_json_fields. -/
structure ChangeRequest where
  id : Nat
  supplier_id : Nat
  requested_changes : List (String × String)
  current_values : List (String × String)
  status : RequestStatus
  reviewed_by : Option Nat
  reviewed_at : Option Nat
  review_notes : Option String
deriving DecidableEq, Repr

/-- A supplier row: a record of field name to value, as the dict returned by
db.get_supplier_by_id. -/
abbrev SupplierRecord := List (String × String)

/-- The portion of the database the arbitration engine touches. -/
structure SystemState where
  suppliers : List (Nat × SupplierRecord)
  requests : List ChangeRequest
  next_request_id : Nat
deriving DecidableEq, Repr

/-- Dictionary read of one field of a supplier record. -/
def lookupField (rec : SupplierRecord) (k : String) : Option String :=
  (rec.find? (fun p => decide (p.1 = k))).map Prod.snd

/-- Dictionary write of one field of a supplier record: replace the value if
the key is present, append it otherwise. -/
def setField (rec : SupplierRecord) (k v : String) : SupplierRecord :=
  if rec.any (fun p => decide (p.1 = k)) then
    rec.map (fun p => if p.1 = k then (p.1, v) else p)
  else rec ++ [(k, v)]

/-- Apply a dictionary of field updates to a supplier record (the update
clause of db.update_supplier). -/
def updateFields (rec : SupplierRecord) (fields : List (String × String)) :
    SupplierRecord :=
  fields.foldl (fun r kv => setField r kv.1 kv.2) rec

/-- db.get_supplier_by_id from supabase.py: select the supplier row by id. -/
def get_supplier_by_id (st : SystemState) (sid : Nat) : Option SupplierRecord :=
  (st.suppliers.find? (fun p => decide (p.1 = sid))).map Prod.snd

/-- db.update_supplier from supabase.py: update the fields of the supplier
row with the given id. -/
def update_supplier (st : SystemState) (sid : Nat)
    (fields : List (String × String)) : SystemState :=
  { st with
    suppliers := st.suppliers.map
      (fun p => if p.1 = sid then (p.1, updateFields p.2 fields) else p) }

/-- The per-row effect of cancelling pending requests of one vendor. -/
def cancel_step (sid : Nat) (r : ChangeRequest) : ChangeRequest :=
  if r.supplier_id = sid ∧ r.status = .PENDING then
    { r with status := .CANCELLED }
  else r

/-- Modelled from the spec: the database procedure
cancel_pending_profile_changes is not in the repository source (only its
caller in profile_changes.py is); per the spec it sets to CANCELLED every
prior PENDING request of the given vendor. -/
def cancel_pending_profile_changes (st : SystemState) (sid : Nat) : SystemState :=
  { st with requests := st.requests.map (cancel_step sid) }

/-- Modelled from the spec: the database function apply_profile_changes is
not in the repository source (only its caller in profile_changes.py is); per
the spec it writes every key of the APPROVED request requested_changes onto
the live vendor record, leaving the request row itself unchanged. -/
def apply_profile_changes (st : SystemState) (rid : Nat) : SystemState :=
  match st.requests.find? (fun r => decide (r.id = rid)) with
  | some r =>
      if r.status = .APPROVED then
        update_supplier st r.supplier_id r.requested_changes
      else st
  | none => st

/-- Select a change request row by id. -/
def find_request (st : SystemState) (rid : Nat) : Option ChangeRequest :=
  st.requests.find? (fun r => decide (r.id = rid))

/-- Update the change request row with the given id. -/
def update_request (st : SystemState) (rid : Nat)
    (f : ChangeRequest → ChangeRequest) : SystemState :=
  { st with requests := st.requests.map (fun r => if r.id = rid then f r else r) }

/-- The PENDING requests of one vendor currently in the store. -/
def pending_requests_of (st : SystemState) (sid : Nat) : List ChangeRequest :=
  st.requests.filter
    (fun r => decide (r.supplier_id = sid ∧ r.status = RequestStatus.PENDING))

/-! ## The submit operation (route submit_profile_change_request) -/

/-- An HTTPException raised by a route handler: status code and detail. -/
structure HTTPError where
  status_code : Nat
  detail : String
deriving DecidableEq, Repr

/-- The ProfileUpdateResponse model returned by the submit route. -/
structure ProfileUpdateResponse where
  success : Bool
  message : String
  direct_updates_applied : Nat
  approval_request_created : Bool
  change_request_id : Option Nat
  direct_fields : List String
  approval_required_fields : List String
  approval_request : Option ChangeRequest
deriving DecidableEq, Repr

/-- Record-store calls issued by the submit handler, in program order. -/
inductive DbEvent where
  | getSupplier (sid : Nat)
  | updateSupplier (sid : Nat) (fields : List (String × String))
  | cancelPending (sid : Nat)
  | insertRequest (rid : Nat)
deriving DecidableEq, Repr

/-- The snapshot loop of the submit route: for each approval-required field,
copy the value from the already-fetched supplier dict when the key is
present there, skipping absent keys. -/
def build_current_values (current_supplier : SupplierRecord)
    (approval_keys : List String) : List (String × String) :=
  approval_keys.filterMap
    (fun field => (lookupField current_supplier field).map (fun v => (field, v)))

/-- The success-message assembly of the submit route. -/
def build_message (direct_updates_applied : Nat) (approval_count : Nat)
    (approval_created : Bool) : String :=
  let parts :=
    (if direct_updates_applied > 0 then
       [toString direct_updates_applied ++ " field(s) updated immediately"]
     else []) ++
    (if approval_created then
       [toString approval_count ++ " field(s) pending admin approval"]
     else [])
  "Profile update processed. " ++ String.intercalate ". " parts ++ "."

/-- submit_profile_change_request from profile_changes.py: validate the
change-set, fetch the supplier, apply direct updates immediately, then for a
non-empty approval subset build the snapshot from the fetched supplier dict,
cancel prior pending requests and insert a new PENDING request. Returns the
route response (or the raised HTTPException), the final store state, and the
trace of record-store calls in program order. -/
def submit_profile_change_request (st : SystemState) (supplier_id : Nat)
    (requested_changes : List (String × String)) :
    Except HTTPError ProfileUpdateResponse × SystemState × List DbEvent :=
  let v := validate_field_permissions requested_changes
  let categorized := v.2.2
  if v.1 then
    match get_supplier_by_id st supplier_id with
    | none => (.error ⟨404, "Supplier not found"⟩, st, [.getSupplier supplier_id])
    | some current_supplier =>
      let step1 :
          SystemState × Nat × List DbEvent :=
        if categorized.direct ≠ [] then
          (update_supplier st supplier_id categorized.direct,
           categorized.direct.length,
           [DbEvent.updateSupplier supplier_id categorized.direct])
        else (st, 0, [])
      let st1 := step1.1
      let direct_updates_applied := step1.2.1
      let ev1 := step1.2.2
      if categorized.approval_required ≠ [] then
        let current_values :=
          build_current_values current_supplier
            (categorized.approval_required.map Prod.fst)
        let st2 := cancel_pending_profile_changes st1 supplier_id
        let new_id := st2.next_request_id
        let new_req : ChangeRequest :=
          { id := new_id
            supplier_id := supplier_id
            requested_changes := categorized.approval_required
            current_values := current_values
            status := .PENDING
            reviewed_by := none
            reviewed_at := none
            review_notes := none }
        let st3 : SystemState :=
          { st2 with
            requests := st2.requests ++ [new_req]
            next_request_id := new_id + 1 }
        (.ok
          { success := true
            message := build_message direct_updates_applied
              categorized.approval_required.length true
            direct_updates_applied := direct_updates_applied
            approval_request_created := true
            change_request_id := some new_id
            direct_fields := categorized.direct.map Prod.fst
            approval_required_fields := categorized.approval_required.map Prod.fst
            approval_request := some new_req },
         st3,
         DbEvent.getSupplier supplier_id ::
           (ev1 ++ [DbEvent.cancelPending supplier_id, DbEvent.insertRequest new_id]))
      else
        (.ok
          { success := true
            message := build_message direct_updates_applied 0 false
            direct_updates_applied := direct_updates_applied
            approval_request_created := false
            change_request_id := none
            direct_fields := categorized.direct.map Prod.fst
            approval_required_fields := []
            approval_request := none },
         st1, DbEvent.getSupplier supplier_id :: ev1)
  else
    (.error ⟨400, v.2.1⟩, st, [])

/-! ## The review operation (route review_profile_change) -/

/-- The action of a ProfileChangeReviewRequest. -/
inductive ReviewAction where
  | approve
  | reject
deriving DecidableEq, Repr

/-- String rendering of a request status, as stored in the status column. -/
def statusString : RequestStatus → String
  | .PENDING => "PENDING"
  | .APPROVED => "APPROVED"
  | .REJECTED => "REJECTED"
  | .CANCELLED => "CANCELLED"

/-- The update dict of the review step: new status, reviewer id, review
timestamp and notes. -/
def review_update (action : ReviewAction) (review_notes : Option String)
    (admin_id : Nat) (now : Nat) (r : ChangeRequest) : ChangeRequest :=
  { r with
    status := if action = .approve then RequestStatus.APPROVED else RequestStatus.REJECTED
    reviewed_by := some admin_id
    reviewed_at := some now
    review_notes := review_notes }

/-- The update dict of the rollback branch: back to PENDING with reviewer,
timestamp and notes cleared. -/
def rollback_update (r : ChangeRequest) : ChangeRequest :=
  { r with
    status := .PENDING
    reviewed_by := none
    reviewed_at := none
    review_notes := none }

/-- review_profile_change from profile_changes.py: fetch the request, refuse
when it is not PENDING, record the review outcome (status, reviewer,
timestamp, notes), and on approval invoke apply_profile_changes; when that
call raises (apply_raises) the handler rolls the status back to PENDING and
clears the reviewer fields, re-raising a 500 error. Returns the outcome
together with the final store state. -/
def review_profile_change (st : SystemState) (request_id : Nat)
    (action : ReviewAction) (review_notes : Option String)
    (admin_id : Nat) (now : Nat) (apply_raises : Bool) :
    Except HTTPError ChangeRequest × SystemState :=
  match find_request st request_id with
  | none => (.error ⟨404, "Profile change request not found"⟩, st)
  | some cr =>
    if cr.status ≠ .PENDING then
      (.error ⟨400, "Cannot review request with status: " ++ statusString cr.status⟩,
       st)
    else
      let st1 := update_request st request_id
        (review_update action review_notes admin_id now)
      match find_request st1 request_id with
      | none => (.error ⟨500, "Failed to update request status"⟩, st1)
      | some updated =>
        if action = .approve then
          if apply_raises then
            let st2 := update_request st1 request_id rollback_update
            (.error ⟨500, "Failed to apply profile changes: db error"⟩, st2)
          else
            (.ok updated, apply_profile_changes st1 request_id)
        else
          (.ok updated, st1)

/-! ## Helper lemmas about the store operations -/

@[simp]
theorem update_supplier_requests (st : SystemState) (sid : Nat)
    (f : List (String × String)) :
    (update_supplier st sid f).requests = st.requests := rfl

@[simp]
theorem update_supplier_next (st : SystemState) (sid : Nat)
    (f : List (String × String)) :
    (update_supplier st sid f).next_request_id = st.next_request_id := rfl

@[simp]
theorem cancel_suppliers (st : SystemState) (sid : Nat) :
    (cancel_pending_profile_changes st sid).suppliers = st.suppliers := rfl

@[simp]
theorem cancel_next (st : SystemState) (sid : Nat) :
    (cancel_pending_profile_changes st sid).next_request_id = st.next_request_id := rfl

@[simp]
theorem cancel_requests (st : SystemState) (sid : Nat) :
    (cancel_pending_profile_changes st sid).requests
      = st.requests.map (cancel_step sid) := rfl

@[simp]
theorem update_request_suppliers (st : SystemState) (rid : Nat)
    (f : ChangeRequest → ChangeRequest) :
    (update_request st rid f).suppliers = st.suppliers := rfl

theorem apply_requests (st : SystemState) (rid : Nat) :
    (apply_profile_changes st rid).requests = st.requests := by
  unfold apply_profile_changes
  cases st.requests.find? (fun r => decide (r.id = rid)) with
  | none => rfl
  | some r =>
    by_cases hr : r.status = RequestStatus.APPROVED <;> simp [hr]

/-- A row touched by the cancel step never ends up as a PENDING row of the
cancelled vendor. -/
theorem cancel_step_not_pending (sid : Nat) (r : ChangeRequest) :
    ¬ ((cancel_step sid r).supplier_id = sid ∧
       (cancel_step sid r).status = RequestStatus.PENDING) := by
  unfold cancel_step
  by_cases h : r.supplier_id = sid ∧ r.status = RequestStatus.PENDING <;> simp [h]

theorem find?_map_update_id (l : List ChangeRequest) (rid : Nat)
    (f : ChangeRequest → ChangeRequest) (hf : ∀ r, (f r).id = r.id) :
    (l.map (fun r => if r.id = rid then f r else r)).find?
        (fun r => decide (r.id = rid))
      = (l.find? (fun r => decide (r.id = rid))).map f := by
  induction l with
  | nil => rfl
  | cons r rest ih =>
    by_cases h : r.id = rid
    · simp [List.find?_cons, h, hf]
    · simp [List.find?_cons, h, ih]

/-- Reading back the row just updated yields the updated row, for updates
that preserve the id column. -/
theorem find_request_update (st : SystemState) (rid : Nat)
    (f : ChangeRequest → ChangeRequest) (hf : ∀ r, (f r).id = r.id) :
    find_request (update_request st rid f) rid = (find_request st rid).map f := by
  unfold find_request update_request
  exact find?_map_update_id st.requests rid f hf

theorem find?_map_update_sid (l : List (Nat × SupplierRecord)) (sid : Nat)
    (f : List (String × String)) :
    (l.map (fun p => if p.1 = sid then (p.1, updateFields p.2 f) else p)).find?
        (fun p => decide (p.1 = sid))
      = (l.find? (fun p => decide (p.1 = sid))).map
          (fun p => (p.1, updateFields p.2 f)) := by
  induction l with
  | nil => rfl
  | cons p rest ih =>
    by_cases h : p.1 = sid
    · simp [List.find?_cons, h]
    · simp [List.find?_cons, h, ih]

/-- Reading back the supplier just updated yields the updated record. -/
theorem get_supplier_by_id_update (st : SystemState) (sid : Nat)
    (f : List (String × String)) (sup : SupplierRecord)
    (hs : get_supplier_by_id st sid = some sup) :
    get_supplier_by_id (update_supplier st sid f) sid
      = some (updateFields sup f) := by
  unfold get_supplier_by_id update_supplier at *
  rw [find?_map_update_sid]
  cases h : st.suppliers.find? (fun p => decide (p.1 = sid)) with
  | none => rw [h] at hs; simp at hs
  | some p =>
    rw [h] at hs
    simp at hs
    simp [hs]

/-! ## Validation equations and the shape of a successful submission -/

theorem validate_rejected_eq (C : List (String × String))
    (h : (separate_changes_by_permission C).rejected ≠ []) :
    validate_field_permissions C
      = (false,
         "Cannot modify read-only fields: " ++ String.intercalate ", "
           ((separate_changes_by_permission C).rejected.map Prod.fst),
         separate_changes_by_permission C) := by
  unfold validate_field_permissions
  simp [h]

theorem validate_empty_eq (C : List (String × String))
    (hr : (separate_changes_by_permission C).rejected = [])
    (hd : (separate_changes_by_permission C).direct = [])
    (ha : (separate_changes_by_permission C).approval_required = []) :
    validate_field_permissions C
      = (false, "No valid fields to update", separate_changes_by_permission C) := by
  unfold validate_field_permissions
  simp [hr, hd, ha]

theorem validate_ok_eq (C : List (String × String))
    (hr : (separate_changes_by_permission C).rejected = [])
    (h : (separate_changes_by_permission C).direct ≠ [] ∨
         (separate_changes_by_permission C).approval_required ≠ []) :
    validate_field_permissions C = (true, "", separate_changes_by_permission C) := by
  unfold validate_field_permissions
  rcases h with h | h <;> simp [hr, h]

/-- The state of the supplier table after the direct-update stage of a
submission. -/
def submit_direct_state (st : SystemState) (sid : Nat)
    (C : List (String × String)) : SystemState :=
  if (separate_changes_by_permission C).direct ≠ [] then
    update_supplier st sid (separate_changes_by_permission C).direct
  else st

/-- The record-store events of the direct-update stage of a submission. -/
def submit_direct_events (sid : Nat) (C : List (String × String)) : List DbEvent :=
  if (separate_changes_by_permission C).direct ≠ [] then
    [DbEvent.updateSupplier sid (separate_changes_by_permission C).direct]
  else []

/-- The PENDING request row inserted by a submission with a non-empty
approval-required subset, given the supplier dict fetched at the start of
the handler. -/
def submit_new_request (st : SystemState) (sid : Nat)
    (C : List (String × String)) (sup : SupplierRecord) : ChangeRequest :=
  { id := st.next_request_id
    supplier_id := sid
    requested_changes := (separate_changes_by_permission C).approval_required
    current_values :=
      build_current_values sup
        ((separate_changes_by_permission C).approval_required.map Prod.fst)
    status := .PENDING
    reviewed_by := none
    reviewed_at := none
    review_notes := none }

/-- Full description of a submission whose approval-required subset is
non-empty and whose validation passes. -/
theorem submit_approval_eq (st : SystemState) (sid : Nat)
    (C : List (String × String)) (sup : SupplierRecord)
    (hs : get_supplier_by_id st sid = some sup)
    (hr : (separate_changes_by_permission C).rejected = [])
    (ha : (separate_changes_by_permission C).approval_required ≠ []) :
    submit_profile_change_request st sid C =
      (.ok
        { success := true
          message := build_message (separate_changes_by_permission C).direct.length
            (separate_changes_by_permission C).approval_required.length true
          direct_updates_applied := (separate_changes_by_permission C).direct.length
          approval_request_created := true
          change_request_id := some st.next_request_id
          direct_fields := (separate_changes_by_permission C).direct.map Prod.fst
          approval_required_fields :=
            (separate_changes_by_permission C).approval_required.map Prod.fst
          approval_request := some (submit_new_request st sid C sup) },
       { suppliers := (submit_direct_state st sid C).suppliers
         requests := st.requests.map (cancel_step sid)
           ++ [submit_new_request st sid C sup]
         next_request_id := st.next_request_id + 1 },
       DbEvent.getSupplier sid ::
         (submit_direct_events sid C ++
           [DbEvent.cancelPending sid, DbEvent.insertRequest st.next_request_id])) := by
  have hv := validate_ok_eq C hr (Or.inr ha)
  unfold submit_profile_change_request
  rw [hv, hs]
  by_cases hd : (separate_changes_by_permission C).direct = [] <;>
    simp [hd, ha, submit_direct_state, submit_direct_events, submit_new_request,
      cancel_pending_profile_changes, update_supplier]

/-- Full description of a submission whose approval-required subset is empty
and whose direct subset is non-empty. -/
theorem submit_direct_only_eq (st : SystemState) (sid : Nat)
    (C : List (String × String)) (sup : SupplierRecord)
    (hs : get_supplier_by_id st sid = some sup)
    (hr : (separate_changes_by_permission C).rejected = [])
    (ha : (separate_changes_by_permission C).approval_required = [])
    (hd : (separate_changes_by_permission C).direct ≠ []) :
    submit_profile_change_request st sid C =
      (.ok
        { success := true
          message := build_message (separate_changes_by_permission C).direct.length 0 false
          direct_updates_applied := (separate_changes_by_permission C).direct.length
          approval_request_created := false
          change_request_id := none
          direct_fields := (separate_changes_by_permission C).direct.map Prod.fst
          approval_required_fields := []
          approval_request := none },
       update_supplier st sid (separate_changes_by_permission C).direct,
       [DbEvent.getSupplier sid,
        DbEvent.updateSupplier sid (separate_changes_by_permission C).direct]) := by
  have hv := validate_ok_eq C hr (Or.inl hd)
  unfold submit_profile_change_request
  rw [hv, hs]
  simp [hd, ha]

/-- An invalid submission raises 400 and leaves the store untouched. -/
theorem submit_invalid_eq (st : SystemState) (sid : Nat)
    (C : List (String × String))
    (hv : (validate_field_permissions C).1 = false) :
    submit_profile_change_request st sid C
      = (.error ⟨400, (validate_field_permissions C).2.1⟩, st, []) := by
  unfold submit_profile_change_request
  simp [hv]

/-! ## Lookup lemmas for field dictionaries -/

theorem find?_append_eq {α} (l1 l2 : List α) (p : α → Bool) :
    (l1 ++ l2).find? p
      = match l1.find? p with
        | some a => some a
        | none => l2.find? p := by
  induction l1 with
  | nil => rfl
  | cons a rest ih =>
    by_cases h : p a
    · simp [List.find?_cons, h]
    · simp [List.find?_cons, h, ih]

theorem cancel_step_id (sid : Nat) (r : ChangeRequest) :
    (cancel_step sid r).id = r.id := by
  unfold cancel_step
  split <;> rfl

theorem find?_map_set (l : List (String × String)) (k1 v k : String)
    (h : k ≠ k1) :
    (l.map (fun p => if p.1 = k1 then (p.1, v) else p)).find?
        (fun p => decide (p.1 = k))
      = l.find? (fun p => decide (p.1 = k)) := by
  induction l with
  | nil => rfl
  | cons p rest ih =>
    by_cases hpk : p.1 = k <;> by_cases hp : p.1 = k1
    · exact absurd (hpk.symm.trans hp) h
    · simp [List.find?_cons, hpk, hp, h, Ne.symm h, ih]
    · simp [List.find?_cons, hpk, hp, h, Ne.symm h, ih]
    · simp [List.find?_cons, hpk, hp, h, Ne.symm h, ih]

theorem lookupField_setField_ne (rec : SupplierRecord) (k1 v k : String)
    (h : k ≠ k1) :
    lookupField (setField rec k1 v) k = lookupField rec k := by
  unfold setField lookupField
  by_cases ha : rec.any (fun p => decide (p.1 = k1)) = true
  · rw [if_pos ha, find?_map_set rec k1 v k h]
  · rw [if_neg ha, find?_append_eq]
    cases hf : rec.find? (fun p => decide (p.1 = k)) with
    | some p => rfl
    | none => simp [List.find?_cons, Ne.symm h]

theorem lookupField_updateFields (rec : SupplierRecord)
    (fields : List (String × String)) (k : String)
    (h : k ∉ fields.map Prod.fst) :
    lookupField (updateFields rec fields) k = lookupField rec k := by
  induction fields generalizing rec with
  | nil => rfl
  | cons kv rest ih =>
    have hk : k ≠ kv.1 := by
      intro he
      exact h (by simp [he])
    have hrest : k ∉ rest.map Prod.fst := by
      intro he
      exact h (by simp [he])
    show lookupField (updateFields (setField rec kv.1 kv.2) rest) k = _
    rw [ih (setField rec kv.1 kv.2) hrest,
      lookupField_setField_ne rec kv.1 kv.2 k hk]

theorem build_current_values_congr (s1 s2 : SupplierRecord)
    (keys : List String)
    (h : ∀ k ∈ keys, lookupField s1 k = lookupField s2 k) :
    build_current_values s1 keys = build_current_values s2 keys := by
  induction keys with
  | nil => rfl
  | cons k rest ih =>
    unfold build_current_values at *
    rw [List.filterMap_cons, List.filterMap_cons, h k (by simp),
      ih (fun k2 hk2 => h k2 (by simp [hk2]))]

theorem build_current_values_keys (sup : SupplierRecord) (keys : List String)
    (h : ∀ k ∈ keys, (lookupField sup k).isSome) :
    (build_current_values sup keys).map Prod.fst = keys := by
  induction keys with
  | nil => rfl
  | cons k rest ih =>
    unfold build_current_values at *
    rw [List.filterMap_cons]
    cases hl : lookupField sup k with
    | none =>
      have := h k (by simp)
      rw [hl] at this
      simp at this
    | some v =>
      rw [show Option.map (fun v => (k, v)) (some v) = some (k, v) from rfl,
        List.map_cons, ih (fun k2 hk2 => h k2 (by simp [hk2]))]

/-! ## Classification of the bucket members -/

theorem mem_direct_perm (C : List (String × String)) (kv : String × String)
    (h : kv ∈ (separate_changes_by_permission C).direct) :
    get_field_permission kv.1 = .DIRECT := by
  rw [separate_eq_filter] at h
  simp only [List.mem_filter, decide_eq_true_eq] at h
  exact h.2

theorem mem_approval_perm (C : List (String × String)) (kv : String × String)
    (h : kv ∈ (separate_changes_by_permission C).approval_required) :
    get_field_permission kv.1 = .APPROVAL_REQUIRED := by
  rw [separate_eq_filter] at h
  simp only [List.mem_filter, decide_eq_true_eq] at h
  exact h.2

/-! ## Pending-request bookkeeping -/

theorem pending_filter_cancel (l : List ChangeRequest) (sid : Nat) :
    (l.map (cancel_step sid)).filter
      (fun r => decide (r.supplier_id = sid ∧ r.status = RequestStatus.PENDING))
      = [] := by
  apply List.filter_eq_nil_iff.mpr
  intro r hr
  rw [List.mem_map] at hr
  obtain ⟨a, _, rfl⟩ := hr
  simpa using cancel_step_not_pending sid a

theorem get_supplier_congr (st st2 : SystemState)
    (h : st.suppliers = st2.suppliers) (sid : Nat) :
    get_supplier_by_id st sid = get_supplier_by_id st2 sid := by
  unfold get_supplier_by_id
  rw [h]

theorem get_supplier_direct_state (st : SystemState) (sid : Nat)
    (C : List (String × String)) (sup : SupplierRecord)
    (hs : get_supplier_by_id st sid = some sup) :
    get_supplier_by_id (submit_direct_state st sid C) sid
      = some (updateFields sup (separate_changes_by_permission C).direct) := by
  unfold submit_direct_state
  by_cases hd : (separate_changes_by_permission C).direct = []
  · simp only [hd, ne_eq, not_true_eq_false, if_false]
    rw [hs]
    rfl
  · simp only [ne_eq, hd, not_false_eq_true, if_true]
    exact get_supplier_by_id_update st sid _ sup hs

theorem find_request_apply (st : SystemState) (rid rid2 : Nat) :
    find_request (apply_profile_changes st rid2) rid = find_request st rid := by
  unfold find_request
  rw [apply_requests]

/-! ## Claim theorems -/

/-- C7: the field classifier is total — every field name is classified and
only as one of the three levels; the DIRECT and APPROVAL_REQUIRED static
sets are disjoint, so the result is unambiguous; and every name belonging to
neither set, including all system-managed field names and any unrecognized
name, is classified READ_ONLY (fail-closed default). -/
theorem C7_classifier_total_fail_closed :
    (∀ f : String,
      get_field_permission f = .DIRECT ∨
      get_field_permission f = .APPROVAL_REQUIRED ∨
      get_field_permission f = .READ_ONLY) ∧
    (∀ f ∈ DIRECT_UPDATE_FIELDS, f ∉ APPROVAL_REQUIRED_FIELDS) ∧
    (∀ f : String, f ∉ DIRECT_UPDATE_FIELDS → f ∉ APPROVAL_REQUIRED_FIELDS →
      get_field_permission f = .READ_ONLY) ∧
    (∀ f ∈ READ_ONLY_FIELDS, get_field_permission f = .READ_ONLY) := by
  refine ⟨?_, by decide, ?_, by decide⟩
  · intro f
    unfold get_field_permission
    by_cases h1 : f ∈ DIRECT_UPDATE_FIELDS
    · simp [h1]
    · by_cases h2 : f ∈ APPROVAL_REQUIRED_FIELDS <;> simp [h1, h2]
  · intro f h1 h2
    unfold get_field_permission
    simp [h1, h2]

theorem C7_witness : get_field_permission "mystery_field" = .READ_ONLY :=
  C7_classifier_total_fail_closed.2.2.1 "mystery_field" (by decide) (by decide)

/-- C6: separate assigns each entry of the change-set to exactly the bucket
of its classification, preserving the value; when every key is DIRECT or
APPROVAL_REQUIRED, the direct and approval buckets together are a
permutation of the change-set, and the two buckets always have disjoint key
sets. -/
theorem C6_separate_partition (C : List (String × String)) :
    (∀ kv : String × String,
      (kv ∈ (separate_changes_by_permission C).direct ↔
        kv ∈ C ∧ get_field_permission kv.1 = .DIRECT) ∧
      (kv ∈ (separate_changes_by_permission C).approval_required ↔
        kv ∈ C ∧ get_field_permission kv.1 = .APPROVAL_REQUIRED) ∧
      (kv ∈ (separate_changes_by_permission C).rejected ↔
        kv ∈ C ∧ get_field_permission kv.1 = .READ_ONLY)) ∧
    ((∀ kv ∈ C, get_field_permission kv.1 ≠ .READ_ONLY) →
      List.Perm
        ((separate_changes_by_permission C).direct ++
          (separate_changes_by_permission C).approval_required) C) ∧
    (∀ k : String,
      ¬ (k ∈ (separate_changes_by_permission C).direct.map Prod.fst ∧
         k ∈ (separate_changes_by_permission C).approval_required.map Prod.fst)) := by
  refine ⟨?_, ?_, ?_⟩
  · intro kv
    rw [separate_eq_filter]
    simp [List.mem_filter]
  · intro h
    simp only [separate_eq_filter]
    have he :
        C.filter (fun p => decide (get_field_permission p.1 = .APPROVAL_REQUIRED))
          = C.filter (fun p => !(decide (get_field_permission p.1 = .DIRECT))) := by
      apply List.filter_congr
      intro x hx
      cases hp : get_field_permission x.1
      · simp [hp]
      · simp [hp]
      · exact absurd hp (h x hx)
    rw [he]
    exact List.filter_append_perm _ C
  · rintro k ⟨h1, h2⟩
    rw [List.mem_map] at h1 h2
    obtain ⟨kv1, hm1, hk1⟩ := h1
    obtain ⟨kv2, hm2, hk2⟩ := h2
    have e1 := mem_direct_perm C kv1 hm1
    have e2 := mem_approval_perm C kv2 hm2
    rw [hk1] at e1
    rw [hk2] at e2
    exact absurd (e1.symm.trans e2) (by decide)

theorem C6_witness :
    List.Perm
      ((separate_changes_by_permission [("phone", "1"), ("email", "2")]).direct ++
        (separate_changes_by_permission [("phone", "1"), ("email", "2")]).approval_required)
      [("phone", "1"), ("email", "2")] :=
  (C6_separate_partition [("phone", "1"), ("email", "2")]).2.1 (by decide)

/-- C3: validation fails with the read-only error listing exactly the
offending field names whenever the change-set touches a READ_ONLY field,
taking precedence over everything else, and the submission then applies
nothing at all to the store; otherwise it fails with the empty-submission
error when no DIRECT and no APPROVAL_REQUIRED field is present; otherwise
it succeeds with the three-way split. -/
theorem C3_validation_precedence (st : SystemState) (sid : Nat)
    (C : List (String × String)) :
    ((separate_changes_by_permission C).rejected ≠ [] →
      validate_field_permissions C
        = (false,
           "Cannot modify read-only fields: " ++ String.intercalate ", "
             ((separate_changes_by_permission C).rejected.map Prod.fst),
           separate_changes_by_permission C) ∧
      submit_profile_change_request st sid C
        = (.error ⟨400,
            "Cannot modify read-only fields: " ++ String.intercalate ", "
              ((separate_changes_by_permission C).rejected.map Prod.fst)⟩,
           st, [])) ∧
    ((separate_changes_by_permission C).rejected = [] →
     (separate_changes_by_permission C).direct = [] →
     (separate_changes_by_permission C).approval_required = [] →
      validate_field_permissions C
        = (false, "No valid fields to update", separate_changes_by_permission C) ∧
      submit_profile_change_request st sid C
        = (.error ⟨400, "No valid fields to update"⟩, st, [])) ∧
    ((separate_changes_by_permission C).rejected = [] →
     ((separate_changes_by_permission C).direct ≠ [] ∨
      (separate_changes_by_permission C).approval_required ≠ []) →
      validate_field_permissions C = (true, "", separate_changes_by_permission C)) := by
  refine ⟨?_, ?_, validate_ok_eq C⟩
  · intro h
    have hv := validate_rejected_eq C h
    refine ⟨hv, ?_⟩
    rw [submit_invalid_eq st sid C (by rw [hv]), hv]
  · intro hr hd ha
    have hv := validate_empty_eq C hr hd ha
    refine ⟨hv, ?_⟩
    rw [submit_invalid_eq st sid C (by rw [hv]), hv]

theorem C3_witness :
    validate_field_permissions [("status", "APPROVED"), ("phone", "1")]
      = (false,
         "Cannot modify read-only fields: " ++ String.intercalate ", "
           ((separate_changes_by_permission
               [("status", "APPROVED"), ("phone", "1")]).rejected.map Prod.fst),
         separate_changes_by_permission [("status", "APPROVED"), ("phone", "1")]) ∧
    submit_profile_change_request ⟨[(1, [("phone", "0")])], [], 0⟩ 1
        [("status", "APPROVED"), ("phone", "1")]
      = (.error ⟨400,
          "Cannot modify read-only fields: " ++ String.intercalate ", "
            ((separate_changes_by_permission
                [("status", "APPROVED"), ("phone", "1")]).rejected.map Prod.fst)⟩,
         ⟨[(1, [("phone", "0")])], [], 0⟩, []) :=
  (C3_validation_precedence ⟨[(1, [("phone", "0")])], [], 0⟩ 1
    [("status", "APPROVED"), ("phone", "1")]).1 (by decide)

/-- C10: a valid submission whose approval-required subset is empty (all
supplied fields DIRECT) cancels nothing and creates no request — the
request store is unchanged — and the response reports that no approval
request was created, with a null change request id. -/
theorem C10_direct_only_frame (st : SystemState) (sid : Nat)
    (C : List (String × String)) (sup : SupplierRecord)
    (hs : get_supplier_by_id st sid = some sup)
    (hr : (separate_changes_by_permission C).rejected = [])
    (ha : (separate_changes_by_permission C).approval_required = [])
    (hd : (separate_changes_by_permission C).direct ≠ []) :
    (submit_profile_change_request st sid C).2.1.requests = st.requests ∧
    (submit_profile_change_request st sid C).2.1.next_request_id
      = st.next_request_id ∧
    ((submit_profile_change_request st sid C).1.toOption.map
        (fun r => (r.approval_request_created, r.change_request_id)))
      = some (false, none) := by
  rw [submit_direct_only_eq st sid C sup hs hr ha hd]
  exact ⟨rfl, rfl, rfl⟩

theorem C10_witness :
    (submit_profile_change_request ⟨[(1, [("phone", "0")])], [], 5⟩ 1
        [("phone", "1")]).2.1.requests = [] ∧
    (submit_profile_change_request ⟨[(1, [("phone", "0")])], [], 5⟩ 1
        [("phone", "1")]).2.1.next_request_id = 5 ∧
    ((submit_profile_change_request ⟨[(1, [("phone", "0")])], [], 5⟩ 1
        [("phone", "1")]).1.toOption.map
        (fun r => (r.approval_request_created, r.change_request_id)))
      = some (false, none) :=
  C10_direct_only_frame ⟨[(1, [("phone", "0")])], [], 5⟩ 1 [("phone", "1")]
    [("phone", "0")] (by decide) (by decide) (by decide) (by decide)

/-- The vendor record and store of scenario A. -/
def scenarioA_supplier : SupplierRecord :=
  [("phone", "+1 555 0000"), ("company_name", "Acme")]

def scenarioA_state : SystemState :=
  { suppliers := [(7, scenarioA_supplier)], requests := [], next_request_id := 0 }

def scenarioA_changes : List (String × String) :=
  [("phone", "+1 555 0100"), ("company_name", "Acme Renamed")]

def scenarioA_out :=
  submit_profile_change_request scenarioA_state 7 scenarioA_changes

/-- C8: scenario A — submitting phone and company_name reports one direct
update applied, an approval request created, the direct/approval field
split, updates the phone on the vendor record immediately, leaves
company_name unchanged, and company_name changes only once the request is
approved and applied. -/
theorem C8_scenarioA :
    (scenarioA_out.1.toOption.map (fun r =>
      (r.direct_updates_applied, r.approval_request_created, r.direct_fields,
       r.approval_required_fields, r.change_request_id)))
      = some (1, true, ["phone"], ["company_name"], some 0) ∧
    (get_supplier_by_id scenarioA_out.2.1 7).map
        (fun s => (lookupField s "phone", lookupField s "company_name"))
      = some (some "+1 555 0100", some "Acme") ∧
    (get_supplier_by_id
        (review_profile_change scenarioA_out.2.1 0 .approve none 9 5 false).2 7).map
        (fun s => lookupField s "company_name")
      = some (some "Acme Renamed") := by
  refine ⟨by decide, by decide, by decide⟩

/-- C1: when the apply step raises during an approve review of a PENDING
request, the handler rolls the request back: afterwards its status is
PENDING (not APPROVED) and reviewed_by, reviewed_at and review_notes are
cleared, and a 500 error is surfaced to the caller. -/
theorem C1_apply_rollback (st : SystemState) (rid admin_id now : Nat)
    (notes : Option String) (cr : ChangeRequest)
    (hfind : find_request st rid = some cr)
    (hp : cr.status = RequestStatus.PENDING) :
    (review_profile_change st rid .approve notes admin_id now true).1
      = .error ⟨500, "Failed to apply profile changes: db error"⟩ ∧
    find_request (review_profile_change st rid .approve notes admin_id now true).2 rid
      = some { cr with
               status := RequestStatus.PENDING
               reviewed_by := none
               reviewed_at := none
               review_notes := none } := by
  have h1 : find_request
      (update_request st rid (review_update .approve notes admin_id now)) rid
      = some (review_update .approve notes admin_id now cr) := by
    rw [find_request_update st rid (review_update .approve notes admin_id now)
      (fun r => rfl), hfind]
    rfl
  have h2 : find_request
      (update_request
        (update_request st rid (review_update .approve notes admin_id now)) rid
        rollback_update) rid
      = some (rollback_update (review_update .approve notes admin_id now cr)) := by
    rw [find_request_update
      (update_request st rid (review_update .approve notes admin_id now)) rid
      rollback_update (fun r => rfl), h1]
    rfl
  simp [review_profile_change, hfind, hp, h1, h2, rollback_update, review_update]

theorem C1_witness :
    (review_profile_change
        ⟨[(1, [("company_name", "Acme")])],
         [⟨0, 1, [("company_name", "B")], [("company_name", "Acme")],
           RequestStatus.PENDING, none, none, none⟩], 1⟩
        0 .approve (some "ok") 9 5 true).1
      = .error ⟨500, "Failed to apply profile changes: db error"⟩ ∧
    find_request
        (review_profile_change
          ⟨[(1, [("company_name", "Acme")])],
           [⟨0, 1, [("company_name", "B")], [("company_name", "Acme")],
             RequestStatus.PENDING, none, none, none⟩], 1⟩
          0 .approve (some "ok") 9 5 true).2 0
      = some ⟨0, 1, [("company_name", "B")], [("company_name", "Acme")],
          RequestStatus.PENDING, none, none, none⟩ :=
  C1_apply_rollback
    ⟨[(1, [("company_name", "Acme")])],
     [⟨0, 1, [("company_name", "B")], [("company_name", "Acme")],
       RequestStatus.PENDING, none, none, none⟩], 1⟩
    0 9 5 (some "ok")
    ⟨0, 1, [("company_name", "B")], [("company_name", "Acme")],
      RequestStatus.PENDING, none, none, none⟩
    (by decide) rfl

/-- C5: reviewing a request that is not PENDING fails with the invalid-state
error and leaves the store unchanged; reviewing a PENDING request records
reviewer identity, review timestamp and the optional notes, transitioning it
to APPROVED on approve (with the apply step succeeding) and to REJECTED on
reject. -/
theorem C5_review_transitions (st : SystemState) (rid admin_id now : Nat)
    (notes : Option String) (cr : ChangeRequest)
    (hfind : find_request st rid = some cr) :
    (cr.status ≠ RequestStatus.PENDING →
      ∀ (action : ReviewAction) (apply_raises : Bool),
        review_profile_change st rid action notes admin_id now apply_raises
          = (.error ⟨400, "Cannot review request with status: "
              ++ statusString cr.status⟩, st)) ∧
    (cr.status = RequestStatus.PENDING →
      ((review_profile_change st rid .approve notes admin_id now false).1
          = .ok { cr with
                  status := RequestStatus.APPROVED
                  reviewed_by := some admin_id
                  reviewed_at := some now
                  review_notes := notes } ∧
        find_request
            (review_profile_change st rid .approve notes admin_id now false).2 rid
          = some { cr with
                   status := RequestStatus.APPROVED
                   reviewed_by := some admin_id
                   reviewed_at := some now
                   review_notes := notes }) ∧
      ∀ apply_raises : Bool,
        (review_profile_change st rid .reject notes admin_id now apply_raises).1
          = .ok { cr with
                  status := RequestStatus.REJECTED
                  reviewed_by := some admin_id
                  reviewed_at := some now
                  review_notes := notes } ∧
        find_request
            (review_profile_change st rid .reject notes admin_id now apply_raises).2 rid
          = some { cr with
                   status := RequestStatus.REJECTED
                   reviewed_by := some admin_id
                   reviewed_at := some now
                   review_notes := notes }) := by
  constructor
  · intro hnp action apply_raises
    simp [review_profile_change, hfind, hnp]
  · intro hp
    have hA : find_request
        (update_request st rid (review_update .approve notes admin_id now)) rid
        = some (review_update .approve notes admin_id now cr) := by
      rw [find_request_update st rid (review_update .approve notes admin_id now)
        (fun r => rfl), hfind]
      rfl
    have hR : find_request
        (update_request st rid (review_update .reject notes admin_id now)) rid
        = some (review_update .reject notes admin_id now cr) := by
      rw [find_request_update st rid (review_update .reject notes admin_id now)
        (fun r => rfl), hfind]
      rfl
    refine ⟨⟨?_, ?_⟩, ?_⟩
    · simp [review_profile_change, hfind, hp, hA, review_update]
    · simp [review_profile_change, hfind, hp, hA, find_request_apply, review_update]
    · intro apply_raises
      constructor
      · simp [review_profile_change, hfind, hp, hR, review_update]
      · simp [review_profile_change, hfind, hp, hR, review_update]

theorem C5_witness :
    (review_profile_change
        ⟨[(1, [("company_name", "Acme")])],
         [⟨0, 1, [("tax_id", "T9")], [("tax_id", "T1")],
           RequestStatus.PENDING, none, none, none⟩], 1⟩
        0 .reject (some "Tax ID unverifiable") 9 5 false).1
      = .ok ⟨0, 1, [("tax_id", "T9")], [("tax_id", "T1")],
          RequestStatus.REJECTED, some 9, some 5, some "Tax ID unverifiable"⟩ ∧
    find_request
        (review_profile_change
          ⟨[(1, [("company_name", "Acme")])],
           [⟨0, 1, [("tax_id", "T9")], [("tax_id", "T1")],
             RequestStatus.PENDING, none, none, none⟩], 1⟩
          0 .reject (some "Tax ID unverifiable") 9 5 false).2 0
      = some ⟨0, 1, [("tax_id", "T9")], [("tax_id", "T1")],
          RequestStatus.REJECTED, some 9, some 5, some "Tax ID unverifiable"⟩ :=
  ((C5_review_transitions
      ⟨[(1, [("company_name", "Acme")])],
       [⟨0, 1, [("tax_id", "T9")], [("tax_id", "T1")],
         RequestStatus.PENDING, none, none, none⟩], 1⟩
      0 9 5 (some "Tax ID unverifiable")
      ⟨0, 1, [("tax_id", "T9")], [("tax_id", "T1")],
        RequestStatus.PENDING, none, none, none⟩
      (by decide)).2 rfl).2 false

/-- Locating a superseded request after two cancel-then-insert rounds: with
all pre-existing ids below the id of the first inserted row, the lookup of
that id finds the first inserted row, now CANCELLED. -/
theorem find?_cancelled (l : List ChangeRequest) (sid nid : Nat)
    (r1 : ChangeRequest) (hids : ∀ r ∈ l, r.id < nid) (hid1 : r1.id = nid)
    (hsid : r1.supplier_id = sid) (hst : r1.status = RequestStatus.PENDING)
    {r2 : ChangeRequest} :
    ((l.map (cancel_step sid) ++ [r1]).map (cancel_step sid) ++ [r2]).find?
        (fun r => decide (r.id = nid))
      = some { r1 with status := RequestStatus.CANCELLED } := by
  rw [List.map_append, List.map_map, find?_append_eq]
  have hnone : (l.map (cancel_step sid ∘ cancel_step sid)).find?
      (fun r => decide (r.id = nid)) = none := by
    rw [List.find?_eq_none]
    intro x hx
    rw [List.mem_map] at hx
    obtain ⟨r, hr, rfl⟩ := hx
    simp only [Function.comp_apply, cancel_step_id, decide_eq_true_eq]
    exact Nat.ne_of_lt (hids r hr)
  rw [find?_append_eq, hnone]
  have hc : cancel_step sid r1 = { r1 with status := RequestStatus.CANCELLED } := by
    unfold cancel_step
    rw [if_pos ⟨hsid, hst⟩]
  simp [List.find?_cons, hc, hid1]

/-- C2: a submission with a non-empty approval-required subset first cancels
every PENDING request of the vendor and then creates one new PENDING
request, so after one submission the vendor has exactly one PENDING request
(the new one), after a second submission exactly one PENDING request again
(the newer one), and the first created request is then CANCELLED. -/
theorem C2_supersede_invariant (st : SystemState) (sid : Nat)
    (Ca Cb : List (String × String)) (sup : SupplierRecord)
    (hs : get_supplier_by_id st sid = some sup)
    (hfresh : ∀ r ∈ st.requests, r.id < st.next_request_id)
    (hra : (separate_changes_by_permission Ca).rejected = [])
    (haa : (separate_changes_by_permission Ca).approval_required ≠ [])
    (hrb : (separate_changes_by_permission Cb).rejected = [])
    (hab : (separate_changes_by_permission Cb).approval_required ≠ []) :
    ((pending_requests_of (submit_profile_change_request st sid Ca).2.1 sid).map
        (fun r => r.id) = [st.next_request_id]) ∧
    ((pending_requests_of
        (submit_profile_change_request
          (submit_profile_change_request st sid Ca).2.1 sid Cb).2.1 sid).map
        (fun r => r.id) = [st.next_request_id + 1]) ∧
    ((find_request
        (submit_profile_change_request
          (submit_profile_change_request st sid Ca).2.1 sid Cb).2.1
        st.next_request_id).map (fun r => r.status)
      = some RequestStatus.CANCELLED) := by
  have e1 := submit_approval_eq st sid Ca sup hs hra haa
  have hs1 : get_supplier_by_id (submit_profile_change_request st sid Ca).2.1 sid
      = some (updateFields sup (separate_changes_by_permission Ca).direct) := by
    rw [e1]
    exact get_supplier_direct_state st sid Ca sup hs
  have e2 := submit_approval_eq (submit_profile_change_request st sid Ca).2.1 sid Cb
    (updateFields sup (separate_changes_by_permission Ca).direct) hs1 hrb hab
  refine ⟨?_, ?_, ?_⟩
  · rw [e1]
    simp [pending_requests_of, List.filter_append, pending_filter_cancel,
      submit_new_request]
    intro a ha hsid hp
    exact cancel_step_not_pending sid a ⟨hsid, hp⟩
  · rw [e2]
    simp only [e1]
    unfold pending_requests_of
    simp only [List.map_append, List.map_map, List.filter_append]
    have h0 : (st.requests.map (cancel_step sid ∘ cancel_step sid)).filter
        (fun r => decide (r.supplier_id = sid ∧ r.status = RequestStatus.PENDING))
        = [] := by
      apply List.filter_eq_nil_iff.mpr
      intro r hr
      rw [List.mem_map] at hr
      obtain ⟨a, _, rfl⟩ := hr
      simpa using cancel_step_not_pending sid (cancel_step sid a)
    rw [h0]
    simp [submit_new_request, cancel_step]
  · rw [e2]
    simp only [e1]
    unfold find_request
    rw [find?_cancelled st.requests sid st.next_request_id
      (submit_new_request st sid Ca sup) hfresh rfl rfl rfl]
    rfl

theorem C2_witness :
    ((pending_requests_of
        (submit_profile_change_request
          ⟨[(1, [("company_name", "Acme")])], [], 0⟩ 1
          [("company_name", "B")]).2.1 1).map (fun r => r.id) = [0]) ∧
    ((pending_requests_of
        (submit_profile_change_request
          (submit_profile_change_request
            ⟨[(1, [("company_name", "Acme")])], [], 0⟩ 1
            [("company_name", "B")]).2.1 1 [("email", "x@y.z")]).2.1 1).map
        (fun r => r.id) = [1]) ∧
    ((find_request
        (submit_profile_change_request
          (submit_profile_change_request
            ⟨[(1, [("company_name", "Acme")])], [], 0⟩ 1
            [("company_name", "B")]).2.1 1 [("email", "x@y.z")]).2.1 0).map
        (fun r => r.status) = some RequestStatus.CANCELLED) :=
  C2_supersede_invariant ⟨[(1, [("company_name", "Acme")])], [], 0⟩ 1
    [("company_name", "B")] [("email", "x@y.z")] [("company_name", "Acme")]
    (by decide) (by intro r hr; cases hr) (by decide) (by decide) (by decide)
    (by decide)

/-- C4 fails on the code as stated: the snapshot loop copies only the keys
already present on the supplier dict, so a supplier record lacking a
requested approval field yields a request whose current_values key set is a
strict subset of the requested_changes key set. Here the supplier has no
company_name key and the created request stores requested keys
["company_name"] against snapshot keys []. -/
theorem C4_counterexample :
    ((submit_profile_change_request ⟨[(1, [("phone", "555")])], [], 0⟩ 1
        [("company_name", "Acme")]).2.1.requests.map
        (fun r => (r.requested_changes.map Prod.fst, r.current_values.map Prod.fst)))
      = [(["company_name"], [])] := by decide

/-- C4 amended: at creation the key set of current_values equals the key set
of requested_changes restricted to the keys present on the supplier record;
in particular, whenever every requested key is present on the supplier
record, the two key sets are identical. -/
theorem C4_amended_snapshot_keys (st : SystemState) (sid : Nat)
    (C : List (String × String)) (sup : SupplierRecord)
    (hs : get_supplier_by_id st sid = some sup)
    (hr : (separate_changes_by_permission C).rejected = [])
    (ha : (separate_changes_by_permission C).approval_required ≠ [])
    (hall : ∀ k ∈ (separate_changes_by_permission C).approval_required.map Prod.fst,
      (lookupField sup k).isSome) :
    ((submit_profile_change_request st sid C).2.1.requests.getLast?).map
        (fun r => (r.requested_changes.map Prod.fst, r.current_values.map Prod.fst))
      = some ((separate_changes_by_permission C).approval_required.map Prod.fst,
              (separate_changes_by_permission C).approval_required.map Prod.fst) := by
  rw [submit_approval_eq st sid C sup hs hr ha]
  simp [List.getLast?_concat, submit_new_request,
    build_current_values_keys sup _ hall]

theorem C4_amended_witness :
    ((submit_profile_change_request ⟨[(1, [("company_name", "Acme")])], [], 0⟩ 1
        [("company_name", "NewCo")]).2.1.requests.getLast?).map
        (fun r => (r.requested_changes.map Prod.fst, r.current_values.map Prod.fst))
      = some ((separate_changes_by_permission
                [("company_name", "NewCo")]).approval_required.map Prod.fst,
              (separate_changes_by_permission
                [("company_name", "NewCo")]).approval_required.map Prod.fst) :=
  C4_amended_snapshot_keys ⟨[(1, [("company_name", "Acme")])], [], 0⟩ 1
    [("company_name", "NewCo")] [("company_name", "Acme")]
    (by decide) (by decide) (by decide) (by decide)

/-- Is this event the direct-field update write for the given vendor. -/
def isDirectUpdateEvent (sid : Nat) : DbEvent → Bool
  | .updateSupplier s _ => decide (s = sid)
  | _ => false

/-- Is this event a read of the given vendor record. -/
def isGetSupplierEvent (sid : Nat) : DbEvent → Bool
  | .getSupplier s => decide (s = sid)
  | _ => false

/-- Following the words of the spec for comparison with the code (the spec
says the snapshot is read from the vendor record after the direct-field
updates of the same submission have been committed): the trace contains a
read of the vendor record occurring strictly after a direct-update write to
that record. -/
def snapshot_read_after_direct_update (tr : List DbEvent) (sid : Nat) : Bool :=
  match tr with
  | [] => false
  | e :: rest =>
      (isDirectUpdateEvent sid e && rest.any (isGetSupplierEvent sid))
        || snapshot_read_after_direct_update rest sid

/-- C9 fails on the code as stated: in a run that applies a direct update
and creates an approval request, the only read of the vendor record is the
one issued before the direct-update write (the handler builds the snapshot
from the dict fetched at the start), so no read of the vendor record occurs
after the direct updates were committed. -/
theorem C9_counterexample :
    (submit_profile_change_request scenarioA_state 7 scenarioA_changes).2.2
      = [DbEvent.getSupplier 7,
         DbEvent.updateSupplier 7 [("phone", "+1 555 0100")],
         DbEvent.cancelPending 7, DbEvent.insertRequest 0] ∧
    snapshot_read_after_direct_update
      (submit_profile_change_request scenarioA_state 7 scenarioA_changes).2.2 7
      = false := ⟨by decide, by decide⟩

/-- C9 amended: the snapshot stored on the new request is built from the
supplier dict fetched before the direct updates, but because direct and
approval-required keys are disjoint it equals exactly what a read of the
vendor record taken after the direct updates would give for the captured
approval-required keys. -/
theorem C9_amended_snapshot_consistent (st : SystemState) (sid : Nat)
    (C : List (String × String)) (sup : SupplierRecord)
    (hs : get_supplier_by_id st sid = some sup)
    (hr : (separate_changes_by_permission C).rejected = [])
    (ha : (separate_changes_by_permission C).approval_required ≠ []) :
    ((submit_profile_change_request st sid C).2.1.requests.getLast?).map
        (fun r => r.current_values)
      = (get_supplier_by_id (submit_profile_change_request st sid C).2.1 sid).map
          (fun sup2 => build_current_values sup2
            ((separate_changes_by_permission C).approval_required.map Prod.fst)) := by
  have key : ∀ k ∈ (separate_changes_by_permission C).approval_required.map Prod.fst,
      lookupField sup k
        = lookupField (updateFields sup (separate_changes_by_permission C).direct) k := by
    intro k hk
    have hnot : k ∉ (separate_changes_by_permission C).direct.map Prod.fst := by
      intro hmem
      rw [List.mem_map] at hmem hk
      obtain ⟨kv1, hm1, hk1⟩ := hmem
      obtain ⟨kv2, hm2, hk2⟩ := hk
      have e1 := mem_direct_perm C kv1 hm1
      have e2 := mem_approval_perm C kv2 hm2
      rw [hk1] at e1
      rw [hk2] at e2
      exact absurd (e1.symm.trans e2) (by decide)
    rw [lookupField_updateFields sup _ k hnot]
  have hgs : get_supplier_by_id (submit_profile_change_request st sid C).2.1 sid
      = some (updateFields sup (separate_changes_by_permission C).direct) := by
    rw [submit_approval_eq st sid C sup hs hr ha]
    exact get_supplier_direct_state st sid C sup hs
  rw [hgs, submit_approval_eq st sid C sup hs hr ha]
  simp only [List.getLast?_concat, Option.map_some', submit_new_request]
  exact congrArg some (build_current_values_congr sup
    (updateFields sup (separate_changes_by_permission C).direct) _ key)

theorem C9_amended_witness :
    ((submit_profile_change_request scenarioA_state 7 scenarioA_changes).2.1.requests.getLast?).map
        (fun r => r.current_values)
      = (get_supplier_by_id
            (submit_profile_change_request scenarioA_state 7 scenarioA_changes).2.1 7).map
          (fun sup2 => build_current_values sup2
            ((separate_changes_by_permission scenarioA_changes).approval_required.map
              Prod.fst)) :=
  C9_amended_snapshot_consistent scenarioA_state 7 scenarioA_changes
    scenarioA_supplier (by decide) (by decide) (by decide)
